import Mathlib

/-!
Verification of the BasicStation backend of the chirpstack-gateway-bridge
repository (package `basicstation`, plus the `config` surface it consumes).

The Go source is shallowly embedded: bytes are `Nat` values below 256, byte
slices are `List Nat`, Go strings are Lean `String`, machine `uint32`
arithmetic is `Nat` with explicit `% 2^32`, and the third-party
`patrickmn/go-cache` store is modelled as a function map together with the
expiration discipline documented by that library (an item is expired when
`now > expireAt`; `IncrementUint32` fails on a missing or expired key and
keeps the original expiration time; `SetDefault` overwrites with a fresh
expiration).  Stateful code is explicit state passing; fallible code returns
`Option`/`Except`.  External calls (JSON, the band library, random bytes,
socket writes) enter as explicit oracle inputs; socket writes are recorded
in a write log.
-/

namespace BasicStation

/-! ## Bytes and hex encoding (Go `encoding/hex`, `lorawan.EUI64.String`) -/

/-- Lowercase hex digit for a nibble, as in Go `encoding/hex`. -/
def hexDigit (n : Nat) : Char :=
  if n < 10 then Char.ofNat (48 + n) else Char.ofNat (87 + n)

/-- Two lowercase hex characters for one byte (Go `hex.EncodeToString`, per byte). -/
def hexOfByte (b : Nat) : List Char :=
  [hexDigit (b % 256 / 16), hexDigit (b % 16)]

/-- Go `hex.EncodeToString`: lowercase hex, no separators.  `lorawan.EUI64.String`
returns exactly this encoding of the 8 identifier bytes. -/
def hexEncode (bs : List Nat) : String :=
  ⟨(bs.map hexOfByte).flatten⟩

/-- Value of one hex character, accepting `0-9`, `a-f`, `A-F` as Go
`hex.DecodeString` does. -/
def hexDigitVal (c : Char) : Option Nat :=
  if 48 ≤ c.toNat ∧ c.toNat ≤ 57 then some (c.toNat - 48)
  else if 97 ≤ c.toNat ∧ c.toNat ≤ 102 then some (c.toNat - 87)
  else if 65 ≤ c.toNat ∧ c.toNat ≤ 70 then some (c.toNat - 55)
  else none

/-- Go `hex.DecodeString` on a character list: `none` models a non-nil error
(invalid character or odd length). -/
def hexDecodeList : List Char → Option (List Nat)
  | [] => some []
  | [_] => none
  | c1 :: c2 :: rest =>
    match hexDigitVal c1, hexDigitVal c2, hexDecodeList rest with
    | some h, some l, some bs => some ((h * 16 + l) :: bs)
    | _, _, _ => none

/-- Go `hex.DecodeString`. -/
def hexDecode (s : String) : Option (List Nat) :=
  hexDecodeList s.data

/-- Go `copy(dst[:], src)` into a zeroed 8-byte array: the first
`min 8 (src.length)` bytes are copied, the rest stay zero. -/
def copy8 (src : List Nat) : List Nat :=
  src.take 8 ++ List.replicate (8 - (src.take 8).length) 0

/-- `strings.TrimPrefix(s, "0x")` on the character list. -/
def trim0x : List Char → List Char
  | '0' :: 'x' :: rest => rest
  | l => l

/-- `lorawan.EUI64.UnmarshalText`: strip an optional `0x`, hex-decode, and
require exactly 8 bytes. -/
def euiUnmarshalText (s : String) : Option (List Nat) :=
  match hexDecodeList (trim0x s.data) with
  | some bs => if bs.length = 8 then some bs else none
  | none => none

/-! ## Single-mode gateway id validation (`NewBackend`, src/unnamed/part_001:183-195) -/

/-- The single-mode portion of `NewBackend`: when single mode is enabled the
configured `gw_id` string is hex-decoded (`err` fatal), rejected when empty,
and otherwise copied into the zeroed 8-byte `singleGwID` array.  The source
performs no length-8 check beyond the copy. -/
def NewBackendSingleGwID (singleEnabled : Bool) (gwID : String) : Except String (List Nat) :=
  if singleEnabled then
    match hexDecode gwID with
    | none => .error "basic_station: Single mode is on! gw_id must be 8byte hex string"
    | some bs =>
      if bs.length = 0 then
        .error "basic_station: Single mode is on! Specify gw_id parameter with gateway id"
      else
        .ok (copy8 bs)
  else
    .ok (List.replicate 8 0)

/-! ## The go-cache store (`patrickmn/go-cache`), used for `statsCache` and `diidCache` -/

/-- One stored item: a value and its absolute expiration time.  Times are
abstract instants (Go nanoseconds). -/
structure CacheItem (α : Type) where
  value : α
  expireAt : Nat
  deriving Repr, DecidableEq

/-- The cache is a key-indexed store.  The janitor only removes items that are
already expired, so it never changes the observable behaviour of `Get`,
`IncrementUint32` or `Delete` and is not modelled separately. -/
def GoCache (α : Type) : Type := String → Option (CacheItem α)

/-- The empty cache. -/
def cacheEmpty {α : Type} : GoCache α := fun _ => none

/-- go-cache `SetDefault`: store the value under the key with expiration
`now + ttl` (the cache default TTL), overwriting any previous item. -/
def cacheSet {α : Type} (c : GoCache α) (k : String) (v : α) (expireAt : Nat) : GoCache α :=
  fun q => if q = k then some ⟨v, expireAt⟩ else c q

/-- go-cache `Get` at time `now`: an item is expired when `now > expireAt`. -/
def cacheGet {α : Type} (c : GoCache α) (now : Nat) (k : String) : Option α :=
  match c k with
  | some it => if it.expireAt < now then none else some it.value
  | none => none

/-- go-cache `Delete`. -/
def cacheDelete {α : Type} (c : GoCache α) (k : String) : GoCache α :=
  fun q => if q = k then none else c q

/-- go-cache `IncrementUint32` at time `now`: fails (returns `none`) when the
key is missing or expired; otherwise adds with `uint32` wrap-around and keeps
the original expiration. -/
def cacheIncrementUint32 (c : GoCache Nat) (now : Nat) (k : String) (n : Nat) :
    Option (GoCache Nat) :=
  match c k with
  | none => none
  | some it =>
    if it.expireAt < now then none
    else some (fun q => if q = k then some ⟨(it.value + n) % 4294967296, it.expireAt⟩ else c q)

/-! ## Stats counter helpers (src/unnamed/part_001:910-936) -/

/-- The shared increment pattern of the three counter helpers: try
`IncrementUint32` on `incKey` and, when it fails, `SetDefault(setKey, 1)`
with the cache default TTL `ttl`.  The two keys coincide for the rx
counters; for tx/txOK the source passes a different (colon-less) increment
key. -/
def incrementOrSet (c : GoCache Nat) (now : Nat) (incKey setKey : String)
    (ttl : Nat) : GoCache Nat :=
  match cacheIncrementUint32 c now incKey 1 with
  | some c' => c'
  | none => cacheSet c setKey 1 (now + ttl)

/-- `incrementRxStats`: bump `<id>:rx` and `<id>:rxOK`; when `IncrementUint32`
fails (missing or expired key) the key is re-created at 1. -/
def incrementRxStats (now ttl : Nat) (c : GoCache Nat) (idStr : String) : GoCache Nat :=
  incrementOrSet (incrementOrSet c now (idStr ++ ":rx") (idStr ++ ":rx") ttl)
    now (idStr ++ ":rxOK") (idStr ++ ":rxOK") ttl

/-- `incrementTxOkStats`: the source increments key `<id>txOK` (no colon) but
re-creates `<id>:txOK` (with colon) on failure; both keys are kept exactly as
written in the source. -/
def incrementTxOkStats (now ttl : Nat) (c : GoCache Nat) (idStr : String) : GoCache Nat :=
  incrementOrSet c now (idStr ++ "txOK") (idStr ++ ":txOK") ttl

/-- `incrementTxStats`: the source increments key `<id>tx` (no colon) but
re-creates `<id>:tx` (with colon) on failure; both keys are kept exactly as
written in the source. -/
def incrementTxStats (now ttl : Nat) (c : GoCache Nat) (idStr : String) : GoCache Nat :=
  incrementOrSet c now (idStr ++ "tx") (idStr ++ ":tx") ttl

/-- The four counters carried by one emitted `gw.GatewayStats` event
(`RxPacketsReceived`, `RxPacketsReceivedOk`, `TxPacketsReceived`,
`TxPacketsEmitted`). -/
structure StatsCounters where
  rx : Nat
  rxOK : Nat
  tx : Nat
  txOK : Nat
  deriving Repr, DecidableEq

/-- One iteration of `statsLoop` (src/unnamed/part_001:399-437): read the four
counters (absent or expired reads as zero), delete the four keys, and emit the
event counters. -/
def statsTick (c : GoCache Nat) (now : Nat) (idStr : String) :
    GoCache Nat × StatsCounters :=
  let rx := (cacheGet c now (idStr ++ ":rx")).getD 0
  let rxOK := (cacheGet c now (idStr ++ ":rxOK")).getD 0
  let tx := (cacheGet c now (idStr ++ ":tx")).getD 0
  let txOK := (cacheGet c now (idStr ++ ":txOK")).getD 0
  let c := cacheDelete c (idStr ++ ":rx")
  let c := cacheDelete c (idStr ++ ":rxOK")
  let c := cacheDelete c (idStr ++ ":tx")
  let c := cacheDelete c (idStr ++ ":txOK")
  (c, ⟨rx, rxOK, tx, txOK⟩)

/-! ## Gateway registry

The registry type `gateways` and its methods live in a file of this
repository that is not under src/ (only their callers are); they are
modelled from the spec, section 4.1. -/

/-- A connection handle.  Only identity matters for the embedding; writes on a
connection are recorded in the write log. -/
abbrev Conn : Type := Nat

/-- Modelled from the spec: a gateway entry holds an optional duplex websocket
connection (the entry mutex is not visible in the sequential embedding). -/
abbrev GatewayEntry : Type := Option Conn

/-- Modelled from the spec: the gateway registry, a mapping from the 8
identifier bytes to a gateway entry. -/
def Registry : Type := List Nat → Option GatewayEntry

/-- Modelled from the spec: `get(eui)` returns the entry or a not-found error. -/
def Registry.get (r : Registry) (eui : List Nat) : Except String GatewayEntry :=
  match r eui with
  | some e => .ok e
  | none => .error "gateway does not exist"

/-- Modelled from the spec: `set(eui, entry)` fails with already-connected when
the existing entry has a live connection, without overwriting; otherwise it
stores the entry. -/
def Registry.set (r : Registry) (eui : List Nat) (e : GatewayEntry) :
    Except String Registry :=
  match r eui with
  | some (some _) => .error "connection with same gateway id already exists"
  | _ => .ok (fun q => if q = eui then some e else r q)

/-- Modelled from the spec: `remove(eui)` drops the entry entirely. -/
def Registry.remove (r : Registry) (eui : List Nat) : Registry :=
  fun q => if q = eui then none else r q

/-- Modelled from the spec: `reset(eui)` keeps the key and nulls the
connection. -/
def Registry.reset (r : Registry) (eui : List Nat) : Registry :=
  fun q => if q = eui then some none else r q

/-! ## Backend state and the socket write path -/

/-- A frame written on a socket: the connection, whether it was a websocket
text frame (`true`) or binary frame (`false`), and the payload bytes. -/
structure SentFrame where
  conn : Conn
  isText : Bool
  payload : List Nat
  deriving DecidableEq

/-- The mutable state of `Backend` that the verified operations touch,
together with a log of every socket write.  `statsTTL` is the default TTL of
`statsCache` (two stats intervals) and `routerConfigBytes` the precomputed
router-config JSON. -/
structure BackendSt where
  gateways : Registry
  statsCache : GoCache Nat
  diidCache : GoCache (List Nat)
  statsTTL : Nat
  routerConfigBytes : List Nat
  writeLog : List SentFrame

/-- `pkg/errors.Wrap`: wrapping a nil error yields nil; `none` models a nil
Go error. -/
def errorsWrap (e : Option String) (msg : String) : Option String :=
  match e with
  | none => none
  | some s => some (msg ++ ": " ++ s)

/-- The TTL of `diidCache` entries: one minute (`cache.New(time.Minute, ...)`),
in Go nanoseconds. -/
def minuteTTL : Nat := 60000000000

/-- `sendDataToGWviaSocket` (src/unnamed/part_001:858-869).  When the entry
has no connection the source returns `errors.Wrap(err, "there is no
connection with the basic station")` where `err` is the nil package-level
variable, so the branch reports no error and writes nothing.  Otherwise the
frame is written (the write deadline is transport detail; the write itself is
recorded). -/
def sendDataToGWviaSocket (st : BackendSt) (e : GatewayEntry) (isText : Bool)
    (data : List Nat) : BackendSt × Option String :=
  match e with
  | none => (st, errorsWrap none "there is no connection with the basic station")
  | some c => ({ st with writeLog := st.writeLog ++ [⟨c, isText, data⟩] }, none)

/-- `sendToGateway` (src/unnamed/part_001:819-842): resolve the gateway in the
registry, then write the JSON payload as a text frame.  The `json.Marshal`
result is supplied as the already-encoded payload bytes. -/
def sendToGateway (st : BackendSt) (eui : List Nat) (payload : List Nat) :
    BackendSt × Option String :=
  match Registry.get st.gateways eui with
  | .error e => (st, some ("get gateway error: " ++ e))
  | .ok entry => sendDataToGWviaSocket st entry true payload

/-- `sendRawToGateway` (src/unnamed/part_001:844-856). -/
def sendRawToGateway (st : BackendSt) (eui : List Nat) (isText : Bool)
    (data : List Nat) : BackendSt × Option String :=
  match Registry.get st.gateways eui with
  | .error e => (st, some ("get gateway error: " ++ e))
  | .ok entry => sendDataToGWviaSocket st entry isText data

/-! ## Downlink path (`SendDownlinkFrame`, src/unnamed/part_001:226-266) -/

/-- The `gw.DownlinkFrame` fields used by the backend. -/
structure DownlinkFrame where
  token : Nat
  gatewayId : List Nat
  downlinkId : List Nat
  deriving DecidableEq

/-- The token actually used for a downlink: when `df.Token == 0` a fresh
16-bit token is read from the random source (two bytes, big-endian), else the
given token.  `rb0`, `rb1` are the two random bytes. -/
def assignedToken (df : DownlinkFrame) (rb0 rb1 : Nat) : Nat :=
  if df.token = 0 then (rb0 % 256) * 256 + rb1 % 256 else df.token

/-- `SendDownlinkFrame`: assign the token, encode via the band library
(`structs.DownlinkFrameFromProto` is outside src/; its outcome enters as the
oracle `enc`), bump the tx counter, record token to downlink-id in
`diidCache` with the one-minute TTL, then send to the gateway. -/
def SendDownlinkFrame (st : BackendSt) (now rb0 rb1 : Nat)
    (enc : Option (List Nat)) (df : DownlinkFrame) : BackendSt × Option String :=
  let token := assignedToken df rb0 rb1
  match enc with
  | none => (st, some "downlink frame from proto error")
  | some pl =>
    let gatewayID := copy8 df.gatewayId
    let st1 := { st with
      statsCache := incrementTxStats now st.statsTTL st.statsCache (hexEncode gatewayID) }
    let st2 := { st1 with
      diidCache := cacheSet st1.diidCache (Nat.repr token) df.downlinkId (now + minuteTTL) }
    match sendToGateway st2 gatewayID pl with
    | (st3, some e) => (st3, some ("send to gateway error: " ++ e))
    | (st3, none) => (st3, none)

/-- `RawPacketForwarderCommand` (src/unnamed/part_001:274-301): reject an
empty payload; otherwise choose a text frame exactly when the payload starts
with an opening brace (byte 123) and send the payload unchanged. -/
def RawPacketForwarderCommand (st : BackendSt) (gatewayIdBytes payload : List Nat) :
    BackendSt × Option String :=
  let gatewayID := copy8 gatewayIdBytes
  if payload.length = 0 then
    (st, some "raw packet-forwarder command payload is empty")
  else
    let isText : Bool := payload.head? = some 123
    match sendRawToGateway st gatewayID isText payload with
    | (st', some e) => (st', some ("send raw packet-forwarder command to gateway error: " ++ e))
    | (st', none) => (st', none)

/-! ## Downlink transmitted (`handleDownlinkTransmittedMessage`,
src/unnamed/part_001:718-745) -/

/-- The decoded `dntxed` message; `DIID` is the wire token (the bridge assigns
it from the `uint32` downlink token). -/
structure DownlinkTransmitted where
  diid : Nat
  deriving DecidableEq

/-- The `gw.DownlinkTXAck` fields used by the backend. -/
structure DownlinkTXAck where
  gatewayId : List Nat
  token : Nat
  downlinkId : List Nat
  deriving DecidableEq

/-- Modelled from the spec: `structs.DownlinkTransmittedToProto` (the structs
package is not under src/) translates a `dntxed` message to a `DownlinkTXAck`
carrying the gateway id and the wire token; the downlink id is recovered from
the cache by the caller. -/
def DownlinkTransmittedToProto (gatewayID : List Nat) (v : DownlinkTransmitted) :
    DownlinkTXAck :=
  { gatewayId := gatewayID, token := v.diid, downlinkId := [] }

/-- `handleDownlinkTransmittedMessage`: translate, then attach the original
downlink id when the stringified DIID is (unexpired) in `diidCache`; the ack
is handed to the registered callback (returned here). -/
def handleDownlinkTransmittedMessage (st : BackendSt) (now : Nat)
    (gatewayID : List Nat) (v : DownlinkTransmitted) : DownlinkTXAck :=
  let txack := DownlinkTransmittedToProto gatewayID v
  match cacheGet st.diidCache now (Nat.repr v.diid) with
  | some bytes => { txack with downlinkId := bytes }
  | none => txack

/-! ## Gateway connection accept (`handleGateway`, src/unnamed/part_001:444-510) -/

/-- How the accept portion of `handleGateway` ends. -/
inductive AcceptResult
  | rejectedCN
  | rejectedDuplicate
  | rejectedSingleMode
  | connected
  deriving DecidableEq

/-- The portion of `handleGateway` before the read loop, after the EUI has
been parsed from the URL: TLS CommonName verification, the duplicate-
connection check, the single-mode id check, and `gateways.set`.  `peerCN` is
the presented client-certificate CommonName, when TLS is active with a peer
certificate.  When `Registry.set` fails the source only logs and still enters
the read loop, leaving the registry untouched. -/
def handleGatewayAccept (singleMode : Bool) (singleGwID : List Nat)
    (peerCN : Option String) (r : Registry) (eui : List Nat) (conn : Conn) :
    AcceptResult × Registry :=
  let cnOk : Bool :=
    match peerCN with
    | none => true
    | some cn =>
      match euiUnmarshalText cn with
      | some b => b = eui
      | none => false
  if cnOk = false then (.rejectedCN, r)
  else
    match Registry.get r eui with
    | .ok (some _) => (.rejectedDuplicate, r)
    | _ =>
      if singleMode ∧ eui ≠ singleGwID then (.rejectedSingleMode, r)
      else
        match Registry.set r eui (some conn) with
        | .ok r' => (.connected, r')
        | .error _ => (.connected, r)

/-! ## Router-info handshake (`handleRouterInfo`, src/unnamed/part_001:346-390) -/

/-- The decoded router-info request: the requested router EUI bytes. -/
structure RouterInfoRequest where
  router : List Nat
  deriving DecidableEq

/-- The router-info response written back (`structs.RouterInfoResponse`);
`errMsg` is its `error` JSON field. -/
structure RouterInfoResponse where
  router : List Nat
  muxs : List Nat
  uri : String
  errMsg : String
  deriving DecidableEq

/-- The scheme after `Start` (src/unnamed/part_001:313-321): `ws` when no TLS
material is configured, otherwise `wss`. -/
def schemeAfterStart (tlsCert tlsKey caCert : String) : String :=
  if tlsCert = "" && tlsKey = "" && caCert = "" then "ws" else "wss"

/-- `handleRouterInfo`, after the one request has been read: build the
response with `router`, `muxs` and the gateway URI; when TLS is active with a
peer certificate whose CommonName does not parse to the requested router EUI,
clear the URI and set the error text.  Exactly this one response is written. -/
def handleRouterInfo (scheme host : String) (peerCN : Option String)
    (req : RouterInfoRequest) : RouterInfoResponse :=
  let resp : RouterInfoResponse :=
    { router := req.router
      muxs := req.router
      uri := scheme ++ "://" ++ host ++ "/gateway/" ++ hexEncode req.router
      errMsg := "" }
  match peerCN with
  | none => resp
  | some cn =>
    match euiUnmarshalText cn with
    | some b =>
      if b = req.router then resp
      else
        { resp with
          uri := ""
          errMsg := "certificate CommonName " ++ cn ++ " does not match router "
            ++ hexEncode req.router }
    | none =>
      { resp with
        uri := ""
        errMsg := "certificate CommonName " ++ cn ++ " does not match router "
          ++ hexEncode req.router }

/-! ## Read-loop dispatch (`handleGateway`, src/unnamed/part_001:517-637) -/

/-- An event delivered upstream through the registered callbacks. -/
inductive UpEvent
  | uplink (gatewayId : List Nat)
  | txAck (ack : DownlinkTXAck)
  | raw (gatewayId : List Nat) (payload : List Nat)
  deriving DecidableEq

/-- Outcomes of the external calls made while handling one text frame:
`structs.GetMessageType` (`none` models a parse error), the typed
`json.Unmarshal` of the message body, the band-library translation together
with UUID generation inside the per-type handlers, the decoded `dntxed`
payload, and the encoded timesync response bytes. -/
structure TextOracle where
  msgType : Option String
  decodeOk : Bool
  translateOk : Bool
  dntxed : DownlinkTransmitted
  respBytes : List Nat

/-- Handling of one text frame in the read loop: dispatch on `msgtype`; the
uplink kinds bump rx counters before decoding, `dntxed` bumps txOK before
decoding; every decode failure drops the frame; an unknown `msgtype` is
forwarded as a raw packet-forwarder event. -/
def handleTextMessage (st : BackendSt) (now : Nat) (gatewayID : List Nat)
    (msg : List Nat) (o : TextOracle) : BackendSt × List UpEvent :=
  match o.msgType with
  | none => (st, [])
  | some mt =>
    if mt = "version" then
      if o.decodeOk then ((sendToGateway st gatewayID st.routerConfigBytes).1, [])
      else (st, [])
    else if mt = "updf" then
      let st := { st with
        statsCache := incrementRxStats now st.statsTTL st.statsCache (hexEncode gatewayID) }
      if o.decodeOk then
        if o.translateOk then (st, [.uplink gatewayID]) else (st, [])
      else (st, [])
    else if mt = "jreq" then
      let st := { st with
        statsCache := incrementRxStats now st.statsTTL st.statsCache (hexEncode gatewayID) }
      if o.decodeOk then
        if o.translateOk then (st, [.uplink gatewayID]) else (st, [])
      else (st, [])
    else if mt = "propdf" then
      let st := { st with
        statsCache := incrementRxStats now st.statsTTL st.statsCache (hexEncode gatewayID) }
      if o.decodeOk then
        if o.translateOk then (st, [.uplink gatewayID]) else (st, [])
      else (st, [])
    else if mt = "dntxed" then
      let st := { st with
        statsCache := incrementTxOkStats now st.statsTTL st.statsCache (hexEncode gatewayID) }
      if o.decodeOk then
        (st, [.txAck (handleDownlinkTransmittedMessage st now gatewayID o.dntxed)])
      else (st, [])
    else if mt = "timesync" then
      if o.decodeOk then ((sendToGateway st gatewayID o.respBytes).1, [])
      else (st, [])
    else
      (st, [.raw gatewayID msg])

/-- One iteration of the read loop: a failed `ReadMessage` (`none`) returns
from the handler (closing the connection); a binary frame is forwarded as a
raw packet-forwarder event; a text frame is dispatched.  The `Bool` result is
whether the loop terminates. -/
def readLoopStep (st : BackendSt) (now : Nat) (gatewayID : List Nat)
    (read : Option (Bool × List Nat × TextOracle)) :
    BackendSt × List UpEvent × Bool :=
  match read with
  | none => (st, [], true)
  | some (isBinary, msg, o) =>
    if isBinary then (st, [.raw gatewayID msg], false)
    else
      let p := handleTextMessage st now gatewayID msg o
      (p.1, p.2, false)

/-! ## Per-gateway stats trace (uplink counting and the stats loop) -/

/-- One observable event for a single gateway at an instant: a well-formed
uplink frame (updf, jreq or propdf) processed by the dispatcher, or one tick
of `statsLoop`. -/
inductive RxEvent
  | frame (t : Nat)
  | tick (t : Nat)
  deriving DecidableEq

/-- Run a trace of uplink frames and stats ticks over the stats cache,
collecting the emitted `GatewayStats` counter sets in order. -/
def runRx (ttl : Nat) (idStr : String) : GoCache Nat → List RxEvent →
    GoCache Nat × List StatsCounters
  | c, [] => (c, [])
  | c, .frame t :: rest => runRx ttl idStr (incrementRxStats t ttl c idStr) rest
  | c, .tick t :: rest =>
    let p := statsTick c t idStr
    let r := runRx ttl idStr p.1 rest
    (r.1, p.2 :: r.2)

/-- Number of uplink frames in a trace. -/
def countFrames : List RxEvent → Nat
  | [] => 0
  | .frame _ :: rest => countFrames rest + 1
  | .tick _ :: rest => countFrames rest

/-- Follows the words of the spec: each tick reports the number of frames
since the previous tick; `k` frames are already pending. -/
def windowCounts : Nat → List RxEvent → List Nat
  | _, [] => []
  | k, .frame _ :: rest => windowCounts (k + 1) rest
  | k, .tick _ :: rest => k :: windowCounts 0 rest

/-- Frames still pending (not yet reported by a tick) at the end of a trace. -/
def pendingAfter : Nat → List RxEvent → Nat
  | k, [] => k
  | k, .frame _ :: rest => pendingAfter (k + 1) rest
  | _, .tick _ :: rest => pendingAfter 0 rest

/-- Timing discipline of a trace: with `T` the instant of the previous tick
(or of the start of the trace), every event happens at or after `T` and no
later than `T + ttl`, where `ttl` is the cache TTL (two stats intervals); the
real stats ticker fires every single interval, satisfying this. -/
def wellTimedB (ttl : Nat) : Nat → List RxEvent → Bool
  | _, [] => true
  | T, .frame t :: rest => decide (T ≤ t) && decide (t ≤ T + ttl) && wellTimedB ttl T rest
  | T, .tick t :: rest => decide (T ≤ t) && decide (t ≤ T + ttl) && wellTimedB ttl t rest

/-! ## Helper lemmas -/

theorem str_append_ne (s : String) {a b : String} (h : ¬ a.data = b.data) :
    ¬ (s ++ a = s ++ b) := by
  intro he
  apply h
  have hd := congrArg String.data he
  rw [String.data_append, String.data_append] at hd
  exact List.append_cancel_left hd

theorem cacheSet_apply_same {α : Type} (c : GoCache α) (k : String) (v : α) (e : Nat) :
    cacheSet c k v e k = some ⟨v, e⟩ := by
  simp [cacheSet]

theorem cacheSet_apply_other {α : Type} (c : GoCache α) {k q : String} (h : ¬ q = k)
    (v : α) (e : Nat) : cacheSet c k v e q = c q := by
  simp [cacheSet, h]

theorem cacheDelete_apply_same {α : Type} (c : GoCache α) (k : String) :
    cacheDelete c k k = none := by
  simp [cacheDelete]

theorem cacheDelete_apply_other {α : Type} (c : GoCache α) {k q : String} (h : ¬ q = k) :
    cacheDelete c k q = c q := by
  simp [cacheDelete, h]

theorem cacheGet_of_apply {α : Type} {c : GoCache α} {k : String} {v : α} {e now : Nat}
    (hc : c k = some ⟨v, e⟩) (hne : ¬ e < now) : cacheGet c now k = some v := by
  simp [cacheGet, hc, hne]

theorem cacheGet_of_none {α : Type} {c : GoCache α} {k : String} (hc : c k = none)
    (now : Nat) : cacheGet c now k = none := by
  simp [cacheGet, hc]

/-! ## C9 -/

/-- C9: when single mode is enabled, `NewBackend` is claimed to fail unless
`gw_id` is a valid 8-byte hex string.  The source accepts every valid,
non-empty hex string regardless of length: `"aa"` decodes to one byte yet the
constructor succeeds and pads the EUI with zeros, contradicting the claim and
the code's own error message (`gw_id must be 8byte hex string`).  Missing and
non-hex `gw_id` values are rejected as claimed, and an 8-byte value decodes
exactly. -/
theorem C9_singleMode_gwid_length_unchecked :
    NewBackendSingleGwID true "aa" = Except.ok [170, 0, 0, 0, 0, 0, 0, 0] ∧
    NewBackendSingleGwID true ""
      = Except.error "basic_station: Single mode is on! Specify gw_id parameter with gateway id" ∧
    NewBackendSingleGwID true "zz"
      = Except.error "basic_station: Single mode is on! gw_id must be 8byte hex string" ∧
    NewBackendSingleGwID true "0102030405060708"
      = Except.ok [1, 2, 3, 4, 5, 6, 7, 8] := by
  refine ⟨rfl, rfl, rfl, rfl⟩

/-! ## C3 -/

/-- C3: the emitted GatewayStats event is claimed to report `TxPacketsReceived`
equal to the number of `SendDownlinkFrame` calls since the previous tick and
`TxPacketsEmitted` equal to the number of processed `dntxed` messages.  The
increment helpers bump key `<id>tx` / `<id>txOK` but re-create `<id>:tx` /
`<id>:txOK` (the colon is missing in the increment key), so the increment
always fails and the read key is re-set to 1: after two `SendDownlinkFrame`
calls and two `dntxed` messages in one window, the tick reports 1 and 1
instead of 2 and 2. -/
theorem C3_tx_counters_stuck_at_one :
    (statsTick
      (incrementTxOkStats 3 200
        (incrementTxOkStats 2 200
          ((SendDownlinkFrame
            ((SendDownlinkFrame ⟨fun _ => none, cacheEmpty, cacheEmpty, 200, [], []⟩
              0 0 0 (some [1]) ⟨7, [1, 2, 3, 4, 5, 6, 7, 8], [42]⟩).1)
            1 0 0 (some [1]) ⟨7, [1, 2, 3, 4, 5, 6, 7, 8], [42]⟩).1).statsCache
          (hexEncode (copy8 [1, 2, 3, 4, 5, 6, 7, 8])))
        (hexEncode (copy8 [1, 2, 3, 4, 5, 6, 7, 8])))
      4 (hexEncode (copy8 [1, 2, 3, 4, 5, 6, 7, 8]))).2
    = ⟨0, 0, 1, 1⟩ := by
  rfl

/-! ## C4 -/

/-- C4: a downlink for an EUI whose registry entry is absent or whose
connection is nil is claimed to fail with a not-connected error.  For an
absent entry the error is indeed propagated and nothing is written; but for
an entry with a nil connection `sendDataToGWviaSocket` wraps the nil
package-level `err` (`errors.Wrap(nil, ...)` returns nil), so the call
reports success while writing nothing — for both `SendDownlinkFrame` and
`RawPacketForwarderCommand`. -/
theorem C4_nil_connection_reports_success :
    (SendDownlinkFrame
        ⟨fun q => if q = copy8 [1, 2, 3, 4, 5, 6, 7, 8] then some none else none,
          cacheEmpty, cacheEmpty, 200, [], []⟩
        0 0 0 (some [9]) ⟨7, [1, 2, 3, 4, 5, 6, 7, 8], [42]⟩).2 = none ∧
    (SendDownlinkFrame
        ⟨fun q => if q = copy8 [1, 2, 3, 4, 5, 6, 7, 8] then some none else none,
          cacheEmpty, cacheEmpty, 200, [], []⟩
        0 0 0 (some [9]) ⟨7, [1, 2, 3, 4, 5, 6, 7, 8], [42]⟩).1.writeLog = [] ∧
    (RawPacketForwarderCommand
        ⟨fun q => if q = copy8 [1, 2, 3, 4, 5, 6, 7, 8] then some none else none,
          cacheEmpty, cacheEmpty, 200, [], []⟩
        [1, 2, 3, 4, 5, 6, 7, 8] [5]).2 = none ∧
    (RawPacketForwarderCommand
        ⟨fun q => if q = copy8 [1, 2, 3, 4, 5, 6, 7, 8] then some none else none,
          cacheEmpty, cacheEmpty, 200, [], []⟩
        [1, 2, 3, 4, 5, 6, 7, 8] [5]).1.writeLog = [] ∧
    (SendDownlinkFrame ⟨fun _ => none, cacheEmpty, cacheEmpty, 200, [], []⟩
        0 0 0 (some [9]) ⟨7, [1, 2, 3, 4, 5, 6, 7, 8], [42]⟩).2
      = some "send to gateway error: get gateway error: gateway does not exist" ∧
    (SendDownlinkFrame ⟨fun _ => none, cacheEmpty, cacheEmpty, 200, [], []⟩
        0 0 0 (some [9]) ⟨7, [1, 2, 3, 4, 5, 6, 7, 8], [42]⟩).1.writeLog = [] := by
  refine ⟨rfl, rfl, rfl, rfl, rfl, rfl⟩

/-! ## Preservation lemmas for the send path -/

theorem fst_eq_of_eq {α β : Type} {p : α × β} {a : α} {b : β} (h : p = (a, b)) :
    a = p.1 := by
  rw [h]

theorem sendDataToGWviaSocket_fst_diidCache (st : BackendSt) (e : GatewayEntry)
    (b : Bool) (d : List Nat) :
    ((sendDataToGWviaSocket st e b d).1).diidCache = st.diidCache := by
  cases e <;> rfl

theorem sendToGateway_fst_diidCache (st : BackendSt) (eui p : List Nat) :
    ((sendToGateway st eui p).1).diidCache = st.diidCache := by
  unfold sendToGateway
  cases hr : Registry.get st.gateways eui
  · rfl
  · exact sendDataToGWviaSocket_fst_diidCache ..

theorem SendDownlinkFrame_fst_diidCache (st : BackendSt) (now rb0 rb1 : Nat)
    (enc : List Nat) (df : DownlinkFrame) :
    ((SendDownlinkFrame st now rb0 rb1 (some enc) df).1).diidCache
      = cacheSet st.diidCache (Nat.repr (assignedToken df rb0 rb1)) df.downlinkId
          (now + minuteTTL) := by
  unfold SendDownlinkFrame
  split
  next heq => cases heq
  next pl heq =>
    cases heq
    dsimp only
    split
    next st3 e heq2 =>
      rw [fst_eq_of_eq heq2, sendToGateway_fst_diidCache]
    next st3 heq2 =>
      rw [fst_eq_of_eq heq2, sendToGateway_fst_diidCache]

/-! ## C1 -/

/-- C1: after `SendDownlinkFrame` assigns (or receives) token `T` for a frame
carrying downlink-id `D`, a `dntxed` message whose DIID equals `T` that is
handled within the one-minute TTL produces a `DownlinkTXAck` whose
`DownlinkId` is exactly `D`. -/
theorem C1_token_downlink_roundtrip (st : BackendSt) (now t2 rb0 rb1 : Nat)
    (enc : List Nat) (df : DownlinkFrame) (gw : List Nat)
    (h : t2 ≤ now + minuteTTL) :
    handleDownlinkTransmittedMessage
      (SendDownlinkFrame st now rb0 rb1 (some enc) df).1 t2 gw
      ⟨assignedToken df rb0 rb1⟩
    = ⟨gw, assignedToken df rb0 rb1, df.downlinkId⟩ := by
  unfold handleDownlinkTransmittedMessage DownlinkTransmittedToProto
  rw [SendDownlinkFrame_fst_diidCache, cacheGet_of_apply (cacheSet_apply_same ..)
    (by omega)]

/-- Witness for C1: a concrete downlink with token 7 and downlink-id
`[0, 42]`, acknowledged exactly one minute later. -/
theorem C1_token_downlink_roundtrip_witness :
    handleDownlinkTransmittedMessage
      (SendDownlinkFrame ⟨fun _ => none, cacheEmpty, cacheEmpty, 200, [], []⟩
        0 0 0 (some [1]) ⟨7, [1, 2, 3, 4, 5, 6, 7, 8], [0, 42]⟩).1
      minuteTTL [9, 9, 9, 9, 9, 9, 9, 9] ⟨7⟩
    = ⟨[9, 9, 9, 9, 9, 9, 9, 9], 7, [0, 42]⟩ :=
  C1_token_downlink_roundtrip ⟨fun _ => none, cacheEmpty, cacheEmpty, 200, [], []⟩
    0 minuteTTL 0 0 [1] ⟨7, [1, 2, 3, 4, 5, 6, 7, 8], [0, 42]⟩
    [9, 9, 9, 9, 9, 9, 9, 9] (by omega)

/-! ## C10 -/

/-- C10: `SendDownlinkFrame` performs the token assignment, the tx-counter
update and the token-to-downlink-id cache insertion before resolving the
connection, so on a not-connected failure the error is returned while the
cache entry and the counter update persist and nothing is written. -/
theorem C10_sendDownlinkFrame_effects_persist (st : BackendSt) (now rb0 rb1 : Nat)
    (enc : List Nat) (df : DownlinkFrame)
    (habs : st.gateways (copy8 df.gatewayId) = none) :
    (SendDownlinkFrame st now rb0 rb1 (some enc) df).2
      = some "send to gateway error: get gateway error: gateway does not exist" ∧
    cacheGet (SendDownlinkFrame st now rb0 rb1 (some enc) df).1.diidCache now
      (Nat.repr (assignedToken df rb0 rb1)) = some df.downlinkId ∧
    (SendDownlinkFrame st now rb0 rb1 (some enc) df).1.statsCache
      = incrementTxStats now st.statsTTL st.statsCache (hexEncode (copy8 df.gatewayId)) ∧
    (SendDownlinkFrame st now rb0 rb1 (some enc) df).1.writeLog = st.writeLog := by
  have hmain : SendDownlinkFrame st now rb0 rb1 (some enc) df
      = ({ st with
            statsCache := incrementTxStats now st.statsTTL st.statsCache
              (hexEncode (copy8 df.gatewayId))
            diidCache := cacheSet st.diidCache (Nat.repr (assignedToken df rb0 rb1))
              df.downlinkId (now + minuteTTL) },
         some "send to gateway error: get gateway error: gateway does not exist") := by
    unfold SendDownlinkFrame sendToGateway Registry.get
    simp only [habs]
    rfl
  rw [hmain]
  refine ⟨rfl, ?_, rfl, rfl⟩
  exact cacheGet_of_apply (cacheSet_apply_same ..) (by omega)

/-- Witness for C10: a concrete failing downlink on an empty registry leaves
the cache entry and counter update in place. -/
theorem C10_sendDownlinkFrame_effects_persist_witness :
    (SendDownlinkFrame ⟨fun _ => none, cacheEmpty, cacheEmpty, 200, [], []⟩
        5 0 0 (some [1]) ⟨7, [1, 2, 3, 4, 5, 6, 7, 8], [0, 42]⟩).2
      = some "send to gateway error: get gateway error: gateway does not exist" ∧
    cacheGet (SendDownlinkFrame ⟨fun _ => none, cacheEmpty, cacheEmpty, 200, [], []⟩
        5 0 0 (some [1]) ⟨7, [1, 2, 3, 4, 5, 6, 7, 8], [0, 42]⟩).1.diidCache 5
      (Nat.repr (assignedToken ⟨7, [1, 2, 3, 4, 5, 6, 7, 8], [0, 42]⟩ 0 0))
      = some [0, 42] ∧
    (SendDownlinkFrame ⟨fun _ => none, cacheEmpty, cacheEmpty, 200, [], []⟩
        5 0 0 (some [1]) ⟨7, [1, 2, 3, 4, 5, 6, 7, 8], [0, 42]⟩).1.statsCache
      = incrementTxStats 5 200 cacheEmpty (hexEncode (copy8 [1, 2, 3, 4, 5, 6, 7, 8])) ∧
    (SendDownlinkFrame ⟨fun _ => none, cacheEmpty, cacheEmpty, 200, [], []⟩
        5 0 0 (some [1]) ⟨7, [1, 2, 3, 4, 5, 6, 7, 8], [0, 42]⟩).1.writeLog = [] :=
  C10_sendDownlinkFrame_effects_persist ⟨fun _ => none, cacheEmpty, cacheEmpty, 200, [], []⟩
    5 0 0 [1] ⟨7, [1, 2, 3, 4, 5, 6, 7, 8], [0, 42]⟩ rfl

/-! ## C2 -/

/-- C2: while the registry entry for an EUI holds a live connection, any
further accepted connection for that EUI is rejected before registering and
the registry is left unchanged; after `remove` or `reset` (and, in single
mode, only for the configured EUI) a new connection is accepted and
registered. -/
theorem C2_single_live_connection (sm : Bool) (sg : List Nat) (cn : Option String)
    (r : Registry) (eui : List Nat) (c c2 : Conn)
    (hlive : r eui = some (some c)) :
    ((handleGatewayAccept sm sg cn r eui c2).1 ≠ AcceptResult.connected ∧
     (handleGatewayAccept sm sg cn r eui c2).2 = r) ∧
    ((sm = false ∨ eui = sg) →
      ((handleGatewayAccept sm sg none (Registry.remove r eui) eui c2).1
          = AcceptResult.connected ∧
       (handleGatewayAccept sm sg none (Registry.remove r eui) eui c2).2 eui
          = some (some c2)) ∧
      ((handleGatewayAccept sm sg none (Registry.reset r eui) eui c2).1
          = AcceptResult.connected ∧
       (handleGatewayAccept sm sg none (Registry.reset r eui) eui c2).2 eui
          = some (some c2))) := by
  constructor
  · unfold handleGatewayAccept
    simp only [Registry.get, hlive]
    split
    · exact ⟨by simp, rfl⟩
    · exact ⟨by simp, rfl⟩
  · intro hsg
    have hrem : Registry.remove r eui eui = none := by simp [Registry.remove]
    have hres : Registry.reset r eui eui = some none := by simp [Registry.reset]
    have hcond : ¬ (sm = true ∧ ¬ eui = sg) := by
      rcases hsg with h | h
      · simp [h]
      · simp [h]
    constructor
    · unfold handleGatewayAccept
      simp only [Registry.get, Registry.set, hrem]
      simp only [if_neg hcond]
      simp
    · unfold handleGatewayAccept
      simp only [Registry.get, Registry.set, hres]
      simp only [if_neg hcond]
      simp

/-- Witness for C2: a registry holding a live connection for EUI
`01..08` rejects a second accept and, after removal or reset, accepts
again. -/
theorem C2_single_live_connection_witness :
    ((handleGatewayAccept false [] none
        (fun q => if q = [1, 2, 3, 4, 5, 6, 7, 8] then some (some 5) else none)
        [1, 2, 3, 4, 5, 6, 7, 8] 6).1 ≠ AcceptResult.connected ∧
     (handleGatewayAccept false [] none
        (fun q => if q = [1, 2, 3, 4, 5, 6, 7, 8] then some (some 5) else none)
        [1, 2, 3, 4, 5, 6, 7, 8] 6).2
       = (fun q => if q = [1, 2, 3, 4, 5, 6, 7, 8] then some (some 5) else none)) ∧
    (((handleGatewayAccept false [] none
        (Registry.remove
          (fun q => if q = [1, 2, 3, 4, 5, 6, 7, 8] then some (some 5) else none)
          [1, 2, 3, 4, 5, 6, 7, 8])
        [1, 2, 3, 4, 5, 6, 7, 8] 6).1 = AcceptResult.connected ∧
      (handleGatewayAccept false [] none
        (Registry.remove
          (fun q => if q = [1, 2, 3, 4, 5, 6, 7, 8] then some (some 5) else none)
          [1, 2, 3, 4, 5, 6, 7, 8])
        [1, 2, 3, 4, 5, 6, 7, 8] 6).2 [1, 2, 3, 4, 5, 6, 7, 8] = some (some 6)) ∧
     ((handleGatewayAccept false [] none
        (Registry.reset
          (fun q => if q = [1, 2, 3, 4, 5, 6, 7, 8] then some (some 5) else none)
          [1, 2, 3, 4, 5, 6, 7, 8])
        [1, 2, 3, 4, 5, 6, 7, 8] 6).1 = AcceptResult.connected ∧
      (handleGatewayAccept false [] none
        (Registry.reset
          (fun q => if q = [1, 2, 3, 4, 5, 6, 7, 8] then some (some 5) else none)
          [1, 2, 3, 4, 5, 6, 7, 8])
        [1, 2, 3, 4, 5, 6, 7, 8] 6).2 [1, 2, 3, 4, 5, 6, 7, 8] = some (some 6))) :=
  ⟨(C2_single_live_connection false [] none
      (fun q => if q = [1, 2, 3, 4, 5, 6, 7, 8] then some (some 5) else none)
      [1, 2, 3, 4, 5, 6, 7, 8] 5 6 (by decide)).1,
   (C2_single_live_connection false [] none
      (fun q => if q = [1, 2, 3, 4, 5, 6, 7, 8] then some (some 5) else none)
      [1, 2, 3, 4, 5, 6, 7, 8] 5 6 (by decide)).2 (Or.inl rfl)⟩

/-! ## C6 -/

theorem append_data_ne_nil {s : String} (h : ¬ s.data = []) (t : String) :
    ¬ (s ++ t).data = [] := by
  rw [String.data_append]
  intro he
  exact h (List.append_eq_nil.mp he).1

theorem routerInfoErrMsg_ne_empty (cn : String) (bs : List Nat) :
    ¬ ("certificate CommonName " ++ cn ++ " does not match router " ++ hexEncode bs
        = "") := by
  intro he
  have hd : ("certificate CommonName " ++ cn ++ " does not match router "
      ++ hexEncode bs).data = [] := congrArg String.data he
  exact append_data_ne_nil (append_data_ne_nil (append_data_ne_nil (by decide) cn)
    " does not match router ") (hexEncode bs) hd

/-- C6: the router-info handler answers one response whose `Router` and
`Muxs` equal the requested EUI; when no client certificate is presented, or
its CommonName parses to that same EUI, the `URI` is
`scheme://host/gateway/<eui>` with scheme `wss` exactly when TLS material is
configured; when a presented CommonName does not parse to the requested EUI
the `URI` is empty and the `Error` text is non-empty. -/
theorem C6_router_info_response (tlsCert tlsKey caCert host : String)
    (peerCN : Option String) (req : RouterInfoRequest) :
    (schemeAfterStart tlsCert tlsKey caCert
        = if tlsCert = "" ∧ tlsKey = "" ∧ caCert = "" then "ws" else "wss") ∧
    (handleRouterInfo (schemeAfterStart tlsCert tlsKey caCert) host peerCN req).router
        = req.router ∧
    (handleRouterInfo (schemeAfterStart tlsCert tlsKey caCert) host peerCN req).muxs
        = req.router ∧
    ((peerCN = none ∨ ∃ cn, peerCN = some cn ∧ euiUnmarshalText cn = some req.router) →
      (handleRouterInfo (schemeAfterStart tlsCert tlsKey caCert) host peerCN req).uri
          = schemeAfterStart tlsCert tlsKey caCert ++ "://" ++ host ++ "/gateway/"
            ++ hexEncode req.router ∧
      (handleRouterInfo (schemeAfterStart tlsCert tlsKey caCert) host peerCN req).errMsg
          = "") ∧
    (∀ cn, peerCN = some cn → ¬ euiUnmarshalText cn = some req.router →
      (handleRouterInfo (schemeAfterStart tlsCert tlsKey caCert) host peerCN req).uri
          = "" ∧
      ¬ (handleRouterInfo (schemeAfterStart tlsCert tlsKey caCert) host peerCN req).errMsg
          = "") := by
  refine ⟨?_, ?_, ?_, ?_, ?_⟩
  · by_cases h1 : tlsCert = "" <;> by_cases h2 : tlsKey = "" <;> by_cases h3 : caCert = ""
      <;> simp [schemeAfterStart, h1, h2, h3]
  · cases peerCN with
    | none => rfl
    | some cn =>
      unfold handleRouterInfo
      dsimp only
      cases hu : euiUnmarshalText cn with
      | none => rfl
      | some b =>
        dsimp only
        split <;> rfl
  · cases peerCN with
    | none => rfl
    | some cn =>
      unfold handleRouterInfo
      dsimp only
      cases hu : euiUnmarshalText cn with
      | none => rfl
      | some b =>
        dsimp only
        split <;> rfl
  · intro h
    rcases h with h | ⟨cn, hcn, hu⟩
    · subst h; exact ⟨rfl, rfl⟩
    · subst hcn
      unfold handleRouterInfo
      dsimp only
      rw [hu]
      simp
  · intro cn hcn hne
    subst hcn
    unfold handleRouterInfo
    dsimp only
    cases hu : euiUnmarshalText cn with
    | none => exact ⟨rfl, routerInfoErrMsg_ne_empty cn req.router⟩
    | some b =>
      have hb : ¬ b = req.router := by
        intro hb
        exact hne (hu ▸ congrArg some hb)
      dsimp only
      rw [if_neg hb]
      exact ⟨rfl, routerInfoErrMsg_ne_empty cn req.router⟩

/-- Witness for C6: without TLS the URI targets `ws://h/gateway/0102030405060708`;
with a mismatching certificate CommonName the URI is cleared and the error
set. -/
theorem C6_router_info_response_witness :
    (handleRouterInfo (schemeAfterStart "" "" "") "h" none ⟨[1, 2, 3, 4, 5, 6, 7, 8]⟩).uri
        = schemeAfterStart "" "" "" ++ "://" ++ "h" ++ "/gateway/"
          ++ hexEncode [1, 2, 3, 4, 5, 6, 7, 8] ∧
    (handleRouterInfo (schemeAfterStart "" "" "") "h" (some "ffffffffffffffff")
        ⟨[1, 2, 3, 4, 5, 6, 7, 8]⟩).uri = "" ∧
    ¬ (handleRouterInfo (schemeAfterStart "" "" "") "h" (some "ffffffffffffffff")
        ⟨[1, 2, 3, 4, 5, 6, 7, 8]⟩).errMsg = "" :=
  ⟨((C6_router_info_response "" "" "" "h" none ⟨[1, 2, 3, 4, 5, 6, 7, 8]⟩).2.2.2.1
      (Or.inl rfl)).1,
   ((C6_router_info_response "" "" "" "h" (some "ffffffffffffffff")
      ⟨[1, 2, 3, 4, 5, 6, 7, 8]⟩).2.2.2.2 "ffffffffffffffff" rfl (by decide)).1,
   ((C6_router_info_response "" "" "" "h" (some "ffffffffffffffff")
      ⟨[1, 2, 3, 4, 5, 6, 7, 8]⟩).2.2.2.2 "ffffffffffffffff" rfl (by decide)).2⟩

/-! ## C7 -/

/-- C7: an inbound text frame whose `msgtype` cannot be parsed, or whose
typed JSON decode fails, is dropped without emitting an upstream event and
without terminating the read loop; a well-formed frame with an unknown
`msgtype` is instead forwarded upstream as a raw packet-forwarder event. -/
theorem C7_decode_failures_nonfatal (st : BackendSt) (now : Nat) (gid msg : List Nat)
    (o : TextOracle) :
    (o.msgType = none →
      readLoopStep st now gid (some (false, msg, o)) = (st, [], false)) ∧
    (∀ mt, o.msgType = some mt →
      mt ∈ ["version", "updf", "jreq", "propdf", "dntxed", "timesync"] →
      o.decodeOk = false →
      (readLoopStep st now gid (some (false, msg, o))).2.1 = [] ∧
      (readLoopStep st now gid (some (false, msg, o))).2.2 = false) ∧
    (∀ mt, o.msgType = some mt →
      ¬ mt ∈ ["version", "updf", "jreq", "propdf", "dntxed", "timesync"] →
      readLoopStep st now gid (some (false, msg, o))
        = (st, [UpEvent.raw gid msg], false)) := by
  refine ⟨?_, ?_, ?_⟩
  · intro h
    simp [readLoopStep, handleTextMessage, h]
  · intro mt hmt hmem hdec
    simp only [List.mem_cons, List.not_mem_nil, or_false] at hmem
    rcases hmem with h | h | h | h | h | h <;> subst h <;>
      simp [readLoopStep, handleTextMessage, hmt, hdec]
  · intro mt hmt hmem
    simp only [List.mem_cons, List.not_mem_nil, or_false, not_or] at hmem
    obtain ⟨h1, h2, h3, h4, h5, h6⟩ := hmem
    simp [readLoopStep, handleTextMessage, hmt, h1, h2, h3, h4, h5, h6]

/-- Witness for C7: a frame with unparseable `msgtype`, a `updf` frame whose
typed decode fails, and a frame with the unknown `msgtype` `rmtsh`. -/
theorem C7_decode_failures_nonfatal_witness :
    readLoopStep ⟨fun _ => none, cacheEmpty, cacheEmpty, 200, [], []⟩ 0
      [1, 2, 3, 4, 5, 6, 7, 8]
      (some (false, [44], ⟨none, true, true, ⟨0⟩, []⟩))
      = (⟨fun _ => none, cacheEmpty, cacheEmpty, 200, [], []⟩, [], false) ∧
    ((readLoopStep ⟨fun _ => none, cacheEmpty, cacheEmpty, 200, [], []⟩ 0
      [1, 2, 3, 4, 5, 6, 7, 8]
      (some (false, [44], ⟨some "updf", false, true, ⟨0⟩, []⟩))).2.1 = [] ∧
     (readLoopStep ⟨fun _ => none, cacheEmpty, cacheEmpty, 200, [], []⟩ 0
      [1, 2, 3, 4, 5, 6, 7, 8]
      (some (false, [44], ⟨some "updf", false, true, ⟨0⟩, []⟩))).2.2 = false) ∧
    readLoopStep ⟨fun _ => none, cacheEmpty, cacheEmpty, 200, [], []⟩ 0
      [1, 2, 3, 4, 5, 6, 7, 8]
      (some (false, [44], ⟨some "rmtsh", true, true, ⟨0⟩, []⟩))
      = (⟨fun _ => none, cacheEmpty, cacheEmpty, 200, [], []⟩,
         [UpEvent.raw [1, 2, 3, 4, 5, 6, 7, 8] [44]], false) :=
  ⟨(C7_decode_failures_nonfatal ⟨fun _ => none, cacheEmpty, cacheEmpty, 200, [], []⟩ 0
      [1, 2, 3, 4, 5, 6, 7, 8] [44] ⟨none, true, true, ⟨0⟩, []⟩).1 rfl,
   (C7_decode_failures_nonfatal ⟨fun _ => none, cacheEmpty, cacheEmpty, 200, [], []⟩ 0
      [1, 2, 3, 4, 5, 6, 7, 8] [44] ⟨some "updf", false, true, ⟨0⟩, []⟩).2.1
      "updf" rfl (by decide) rfl,
   (C7_decode_failures_nonfatal ⟨fun _ => none, cacheEmpty, cacheEmpty, 200, [], []⟩ 0
      [1, 2, 3, 4, 5, 6, 7, 8] [44] ⟨some "rmtsh", true, true, ⟨0⟩, []⟩).2.2
      "rmtsh" rfl (by decide)⟩

/-! ## C8 -/

/-- C8: `RawPacketForwarderCommand` rejects an empty payload without writing;
for a non-empty payload and a live connection it writes exactly the payload
bytes, unchanged, as a text frame when the first byte is the opening brace
(123) and as a binary frame otherwise. -/
theorem C8_raw_command_passthrough (st : BackendSt) (gwBytes payload : List Nat)
    (conn : Conn) (hconn : st.gateways (copy8 gwBytes) = some (some conn)) :
    (payload = [] →
      RawPacketForwarderCommand st gwBytes payload
        = (st, some "raw packet-forwarder command payload is empty")) ∧
    (¬ payload = [] →
      (RawPacketForwarderCommand st gwBytes payload).2 = none ∧
      (RawPacketForwarderCommand st gwBytes payload).1.writeLog
        = st.writeLog ++ [⟨conn, decide (payload.head? = some 123), payload⟩]) := by
  constructor
  · intro h
    subst h
    rfl
  · intro h
    have hlen : ¬ payload.length = 0 := by
      simpa [List.length_eq_zero] using h
    have hmain : RawPacketForwarderCommand st gwBytes payload
        = ({ st with writeLog := st.writeLog
              ++ [⟨conn, decide (payload.head? = some 123), payload⟩] }, none) := by
      unfold RawPacketForwarderCommand sendRawToGateway Registry.get sendDataToGWviaSocket
      simp only [hconn, if_neg hlen]
    rw [hmain]
    exact ⟨rfl, rfl⟩

/-- Witness for C8: with a live connection, the empty payload errors, payload
`[123, 2]` goes out as a text frame and payload `[5]` as a binary frame. -/
theorem C8_raw_command_passthrough_witness :
    RawPacketForwarderCommand
        ⟨fun q => if q = copy8 [1, 2, 3, 4, 5, 6, 7, 8] then some (some 5) else none,
          cacheEmpty, cacheEmpty, 200, [], []⟩ [1, 2, 3, 4, 5, 6, 7, 8] []
      = (⟨fun q => if q = copy8 [1, 2, 3, 4, 5, 6, 7, 8] then some (some 5) else none,
          cacheEmpty, cacheEmpty, 200, [], []⟩,
         some "raw packet-forwarder command payload is empty") ∧
    (RawPacketForwarderCommand
        ⟨fun q => if q = copy8 [1, 2, 3, 4, 5, 6, 7, 8] then some (some 5) else none,
          cacheEmpty, cacheEmpty, 200, [], []⟩ [1, 2, 3, 4, 5, 6, 7, 8]
        [123, 2]).1.writeLog
      = [⟨5, decide (([123, 2] : List Nat).head? = some 123), [123, 2]⟩] ∧
    (RawPacketForwarderCommand
        ⟨fun q => if q = copy8 [1, 2, 3, 4, 5, 6, 7, 8] then some (some 5) else none,
          cacheEmpty, cacheEmpty, 200, [], []⟩ [1, 2, 3, 4, 5, 6, 7, 8]
        [5]).1.writeLog
      = [⟨5, decide (([5] : List Nat).head? = some 123), [5]⟩] :=
  ⟨(C8_raw_command_passthrough
      ⟨fun q => if q = copy8 [1, 2, 3, 4, 5, 6, 7, 8] then some (some 5) else none,
        cacheEmpty, cacheEmpty, 200, [], []⟩ [1, 2, 3, 4, 5, 6, 7, 8] [] 5
      (by decide)).1 rfl,
   ((C8_raw_command_passthrough
      ⟨fun q => if q = copy8 [1, 2, 3, 4, 5, 6, 7, 8] then some (some 5) else none,
        cacheEmpty, cacheEmpty, 200, [], []⟩ [1, 2, 3, 4, 5, 6, 7, 8] [123, 2] 5
      (by decide)).2 (by decide)).2,
   ((C8_raw_command_passthrough
      ⟨fun q => if q = copy8 [1, 2, 3, 4, 5, 6, 7, 8] then some (some 5) else none,
        cacheEmpty, cacheEmpty, 200, [], []⟩ [1, 2, 3, 4, 5, 6, 7, 8] [5] 5
      (by decide)).2 (by decide)).2⟩

/-! ## C5: counter invariants for the stats trace -/

/-- Invariant tying a counter key to the number `k` of events recorded since
the last tick at instant `T`: either the key is absent and `k = 0`, or it
holds `k` with an expiration no earlier than `T + ttl`. -/
def counterInv (c : GoCache Nat) (key : String) (k T ttl : Nat) : Prop :=
  (c key = none ∧ k = 0) ∨ ∃ e, c key = some ⟨k, e⟩ ∧ T + ttl ≤ e

theorem incrementOrSet_other (c : GoCache Nat) (now : Nat) (incKey setKey : String)
    (ttl : Nat) {q : String} (hq1 : ¬ q = incKey) (hq2 : ¬ q = setKey) :
    incrementOrSet c now incKey setKey ttl q = c q := by
  unfold incrementOrSet cacheIncrementUint32
  cases hci : c incKey with
  | none => exact cacheSet_apply_other c hq2 1 (now + ttl)
  | some it =>
    dsimp only
    split
    · exact cacheSet_apply_other c hq2 1 (now + ttl)
    · simp [hq1]

theorem incrementOrSet_inv {c : GoCache Nat} {key : String} {k T ttl t : Nat}
    (hT : T ≤ t) (ht : t ≤ T + ttl) (hk : k + 1 < 4294967296)
    (hinv : counterInv c key k T ttl) :
    counterInv (incrementOrSet c t key key ttl) key (k + 1) T ttl := by
  rcases hinv with ⟨hnone, hk0⟩ | ⟨e, hc, he⟩
  · have hstep : incrementOrSet c t key key ttl = cacheSet c key 1 (t + ttl) := by
      unfold incrementOrSet cacheIncrementUint32
      rw [hnone]
    rw [hstep, hk0]
    exact Or.inr ⟨t + ttl, cacheSet_apply_same c key 1 (t + ttl), by omega⟩
  · have hnl : ¬ e < t := by omega
    have hstep : incrementOrSet c t key key ttl
        = fun q => if q = key then some ⟨(k + 1) % 4294967296, e⟩ else c q := by
      unfold incrementOrSet cacheIncrementUint32
      rw [hc]
      dsimp only
      rw [if_neg hnl]
    rw [hstep]
    refine Or.inr ⟨e, ?_, he⟩
    simp [Nat.mod_eq_of_lt hk]

theorem counterInv_get {c : GoCache Nat} {key : String} {k T ttl t : Nat}
    (h : counterInv c key k T ttl) (ht : t ≤ T + ttl) :
    (cacheGet c t key).getD 0 = k := by
  rcases h with ⟨hnone, hk0⟩ | ⟨e, hc, he⟩
  · rw [cacheGet_of_none hnone, hk0]
    rfl
  · rw [cacheGet_of_apply hc (by omega)]
    rfl

theorem incrementRxStats_inv {c : GoCache Nat} (idStr : String) {k T ttl t : Nat}
    (hT : T ≤ t) (ht : t ≤ T + ttl) (hk : k + 1 < 4294967296)
    (hrx : counterInv c (idStr ++ ":rx") k T ttl)
    (hrxOK : counterInv c (idStr ++ ":rxOK") k T ttl) :
    counterInv (incrementRxStats t ttl c idStr) (idStr ++ ":rx") (k + 1) T ttl ∧
    counterInv (incrementRxStats t ttl c idStr) (idStr ++ ":rxOK") (k + 1) T ttl := by
  have ne1 : ¬ ((idStr ++ ":rx") = (idStr ++ ":rxOK")) := str_append_ne idStr (by decide)
  have ne2 : ¬ ((idStr ++ ":rxOK") = (idStr ++ ":rx")) := str_append_ne idStr (by decide)
  unfold incrementRxStats
  constructor
  · have h1 := incrementOrSet_inv hT ht hk hrx
    rcases h1 with ⟨hnone, hk0⟩ | ⟨e, hc, he⟩
    · exact Or.inl ⟨by rw [incrementOrSet_other _ _ _ _ _ ne1 ne1]; exact hnone, hk0⟩
    · exact Or.inr ⟨e, by rw [incrementOrSet_other _ _ _ _ _ ne1 ne1]; exact hc, he⟩
  · have hpres : counterInv (incrementOrSet c t (idStr ++ ":rx") (idStr ++ ":rx") ttl)
        (idStr ++ ":rxOK") k T ttl := by
      rcases hrxOK with ⟨hnone, hk0⟩ | ⟨e, hc, he⟩
      · exact Or.inl ⟨by rw [incrementOrSet_other _ _ _ _ _ ne2 ne2]; exact hnone, hk0⟩
      · exact Or.inr ⟨e, by rw [incrementOrSet_other _ _ _ _ _ ne2 ne2]; exact hc, he⟩
    exact incrementOrSet_inv hT ht hk hpres

theorem statsTick_snd_rx (c : GoCache Nat) (t : Nat) (idStr : String) :
    (statsTick c t idStr).2.rx = (cacheGet c t (idStr ++ ":rx")).getD 0 := rfl

theorem statsTick_snd_rxOK (c : GoCache Nat) (t : Nat) (idStr : String) :
    (statsTick c t idStr).2.rxOK = (cacheGet c t (idStr ++ ":rxOK")).getD 0 := rfl

theorem statsTick_fst_rx (c : GoCache Nat) (t : Nat) (idStr : String) :
    (statsTick c t idStr).1 (idStr ++ ":rx") = none := by
  show (cacheDelete (cacheDelete (cacheDelete (cacheDelete c (idStr ++ ":rx"))
      (idStr ++ ":rxOK")) (idStr ++ ":tx")) (idStr ++ ":txOK")) (idStr ++ ":rx") = none
  rw [cacheDelete_apply_other _ (str_append_ne idStr (by decide)),
    cacheDelete_apply_other _ (str_append_ne idStr (by decide)),
    cacheDelete_apply_other _ (str_append_ne idStr (by decide)),
    cacheDelete_apply_same]

theorem statsTick_fst_rxOK (c : GoCache Nat) (t : Nat) (idStr : String) :
    (statsTick c t idStr).1 (idStr ++ ":rxOK") = none := by
  show (cacheDelete (cacheDelete (cacheDelete (cacheDelete c (idStr ++ ":rx"))
      (idStr ++ ":rxOK")) (idStr ++ ":tx")) (idStr ++ ":txOK")) (idStr ++ ":rxOK") = none
  rw [cacheDelete_apply_other _ (str_append_ne idStr (by decide)),
    cacheDelete_apply_other _ (str_append_ne idStr (by decide)),
    cacheDelete_apply_same]

theorem runRx_spec (ttl : Nat) (idStr : String) (evs : List RxEvent) :
    ∀ (T k : Nat) (c : GoCache Nat),
    wellTimedB ttl T evs = true →
    k + countFrames evs < 4294967296 →
    counterInv c (idStr ++ ":rx") k T ttl →
    counterInv c (idStr ++ ":rxOK") k T ttl →
    (runRx ttl idStr c evs).2.map (fun s => s.rx) = windowCounts k evs ∧
    (runRx ttl idStr c evs).2.map (fun s => s.rxOK) = windowCounts k evs := by
  induction evs with
  | nil => exact fun T k c _ _ _ _ => ⟨rfl, rfl⟩
  | cons ev rest ih =>
    intro T k c hw hN hrx hrxOK
    cases ev with
    | frame t =>
      simp only [wellTimedB, Bool.and_eq_true, decide_eq_true_eq] at hw
      obtain ⟨⟨h1, h2⟩, hw⟩ := hw
      simp only [countFrames] at hN
      have hk1 : k + 1 + countFrames rest < 4294967296 := by omega
      obtain ⟨hrx', hrxOK'⟩ := incrementRxStats_inv idStr h1 h2 (by omega) hrx hrxOK
      simp only [runRx, windowCounts]
      exact ih T (k + 1) (incrementRxStats t ttl c idStr) hw hk1 hrx' hrxOK'
    | tick t =>
      simp only [wellTimedB, Bool.and_eq_true, decide_eq_true_eq] at hw
      obtain ⟨⟨h1, h2⟩, hw⟩ := hw
      simp only [countFrames] at hN
      have hrxz : counterInv (statsTick c t idStr).1 (idStr ++ ":rx") 0 t ttl :=
        Or.inl ⟨statsTick_fst_rx c t idStr, rfl⟩
      have hrxOKz : counterInv (statsTick c t idStr).1 (idStr ++ ":rxOK") 0 t ttl :=
        Or.inl ⟨statsTick_fst_rxOK c t idStr, rfl⟩
      obtain ⟨ihrx, ihrxOK⟩ := ih t 0 (statsTick c t idStr).1 hw (by omega) hrxz hrxOKz
      simp only [runRx, windowCounts, List.map_cons]
      constructor
      · rw [statsTick_snd_rx, counterInv_get hrx h2, ihrx]
      · rw [statsTick_snd_rxOK, counterInv_get hrxOK h2, ihrxOK]

theorem windowCounts_sum (evs : List RxEvent) :
    ∀ k, (windowCounts k evs).sum + pendingAfter k evs = k + countFrames evs := by
  induction evs with
  | nil => intro k; simp [windowCounts, pendingAfter, countFrames]
  | cons ev rest ih =>
    intro k
    cases ev with
    | frame t =>
      simp only [windowCounts, pendingAfter, countFrames]
      have := ih (k + 1)
      omega
    | tick t =>
      simp only [windowCounts, pendingAfter, countFrames, List.sum_cons]
      have := ih 0
      omega

/-- C5: over any well-timed trace of uplink frames and stats ticks for one
gateway, every tick reports `rxPacketsReceived` equal to the number of frames
since the previous tick, `rxPacketsReceivedOk` always equals it, and the
reported values sum to the total number of frames minus only those still
pending after the last tick (the one-boundary displacement). -/
theorem C5_uplink_counter_conservation (ttl T0 : Nat) (idStr : String)
    (evs : List RxEvent) (hw : wellTimedB ttl T0 evs = true)
    (hN : countFrames evs < 4294967296) :
    (runRx ttl idStr cacheEmpty evs).2.map (fun s => s.rx) = windowCounts 0 evs ∧
    (runRx ttl idStr cacheEmpty evs).2.map (fun s => s.rxOK) = windowCounts 0 evs ∧
    ((runRx ttl idStr cacheEmpty evs).2.map (fun s => s.rx)).sum + pendingAfter 0 evs
      = countFrames evs := by
  obtain ⟨h1, h2⟩ := runRx_spec ttl idStr evs T0 0 cacheEmpty hw (by omega)
    (Or.inl ⟨rfl, rfl⟩) (Or.inl ⟨rfl, rfl⟩)
  refine ⟨h1, h2, ?_⟩
  rw [h1]
  have := windowCounts_sum evs 0
  omega

/-- Witness for C5: three frames inside the first window and none in the
second give reports `[3, 0]` summing to 3. -/
theorem C5_uplink_counter_conservation_witness :
    (runRx 100 "01" cacheEmpty
      [RxEvent.frame 1, RxEvent.frame 2, RxEvent.frame 3, RxEvent.tick 10,
       RxEvent.tick 20]).2.map (fun s => s.rx) = [3, 0] ∧
    (runRx 100 "01" cacheEmpty
      [RxEvent.frame 1, RxEvent.frame 2, RxEvent.frame 3, RxEvent.tick 10,
       RxEvent.tick 20]).2.map (fun s => s.rxOK) = [3, 0] ∧
    ((runRx 100 "01" cacheEmpty
      [RxEvent.frame 1, RxEvent.frame 2, RxEvent.frame 3, RxEvent.tick 10,
       RxEvent.tick 20]).2.map (fun s => s.rx)).sum
      + pendingAfter 0
          [RxEvent.frame 1, RxEvent.frame 2, RxEvent.frame 3, RxEvent.tick 10,
           RxEvent.tick 20]
      = countFrames
          [RxEvent.frame 1, RxEvent.frame 2, RxEvent.frame 3, RxEvent.tick 10,
           RxEvent.tick 20] := by
  obtain ⟨h1, h2, h3⟩ := C5_uplink_counter_conservation 100 0 "01"
    [RxEvent.frame 1, RxEvent.frame 2, RxEvent.frame 3, RxEvent.tick 10,
     RxEvent.tick 20] (by decide) (by decide)
  refine ⟨?_, ?_, h3⟩
  · rw [h1]; rfl
  · rw [h2]; rfl

end BasicStation
